import Mathlib

/-!
Shallow embedding of the cloudpebble-qemu-controller repository
(src/emulator.py and src/monkey.py), with theorems settling the frozen
claims about its natural-language specification.

Conventions of the embedding:
- Python exceptions are modelled by the `PyErr` type; a function that can
  raise returns `Except PyErr`/`Option` values, where the error value
  records the exception that CPython would raise at that point.
- Machine-global mutable state (the controller process working directory,
  the OS port allocator, the tempfile name source, the module-level
  display set) is threaded explicitly through a `Ctrl` record.
- OS processes are modelled by records carrying the observable behaviour
  the code queries: whether the pid was already reaped when a kill signal
  is sent (so os.kill raises OSError errno 3), and what poll() reports at
  each subsequent polling step.
-/

namespace QemuController

/-- Python exceptions that the translated code can raise. -/
inductive PyErr where
  | osError (errno : Nat)
  | typeError (msg : String)
  | attributeError (msg : String)
  | nameError (name : String)
  | exception (msg : String)
  | keyError (key : Nat)
  | badZipfile
deriving Repr, DecidableEq

/-! ## Timezone formatting (emulator.py lines 172-174)

Python source:
  hours = self.tz_offset // 60
  minutes = abs(self.tz_offset % 60)
  tz = "PBL%+03d:%02d" % (-hours, minutes)

Python `//` is floor division (`Int.fdiv`) and `%` is floor modulus
(`Int.fmod`, result has the sign of the divisor, hence non-negative here).
-/

/-- The printf conversion `%+03d`: explicit sign, zero-padded to a total
width of 3 characters including the sign. -/
def fmtPlus03d (n : Int) : String :=
  let sign := if n < 0 then "-" else "+"
  let a := n.natAbs
  if a < 10 then sign ++ "0" ++ toString a else sign ++ toString a

/-- The printf conversion `%02d` applied to a non-negative value:
zero-padded to width 2. -/
def fmt02d (a : Nat) : String :=
  if a < 10 then "0" ++ toString a else toString a

/-- The TZ environment string built in Emulator._spawn_pkjs:
`"PBL%+03d:%02d" % (-(tz_offset // 60), abs(tz_offset % 60))`. -/
def tzString (off : Int) : String :=
  let hours := Int.fdiv off 60
  let minutes := (Int.fmod off 60).natAbs
  "PBL" ++ fmtPlus03d (-hours) ++ ":" ++ fmt02d minutes

/-! ## Display allocator (emulator.py lines 13-21)

Python source:
  _used_displays = set()
  def _find_display():
      for i in itertools.count():
          if i not in _used_displays:
              _used_displays.add(i)
              return i
  def _free_display(display):
      _used_displays.remove(display)

The Python set is modelled by a duplicate-free `List Nat` holding its
elements. `set.add` appends only when absent; `set.remove` raises
KeyError when the element is absent, modelled by returning `none`.
These two functions are defined in emulator.py but never called by it.
-/

/-- Python `set.add`: inserts the element when absent, no-op otherwise. -/
def set_add (x : Nat) (l : List Nat) : List Nat :=
  if x ∈ l then l else l ++ [x]

/-- Python `set.remove`: removes the element when present; raises
KeyError (modelled by `none`) when absent. The set is unchanged when the
call raises. -/
def set_remove (x : Nat) (l : List Nat) : Option (List Nat) :=
  if x ∈ l then some (l.erase x) else none

/-- The search loop of `_find_display`: scan i, i+1, ... for the first
index not in the set. `itertools.count()` is unbounded; the loop is given
enough fuel to be total, and the fuel is provably sufficient because a
list of length n cannot contain all of 0..n. -/
def find_free (l : List Nat) : Nat → Nat → Nat
  | 0, i => i
  | Nat.succ fuel, i => if i ∈ l then find_free l fuel (i + 1) else i

/-- `_find_display()`: returns the smallest index not in the used set and
adds it to the set. -/
def find_display (l : List Nat) : Nat × List Nat :=
  let d := find_free l (l.length + 1) 0
  (d, set_add d l)

/-- `_free_display(display)`: `_used_displays.remove(display)`. -/
def free_display (d : Nat) (l : List Nat) : Option (List Nat) :=
  set_remove d l

/-- A call sequence against the module-level display set. -/
inductive DispOp where
  | alloc
  | release (d : Nat)
deriving Repr, DecidableEq

/-- Runs a sequence of `_find_display`/`_free_display` calls against the
set. A release of an absent index raises KeyError and leaves the set
unchanged (set.remove mutates nothing when it raises); the remaining
calls are still executed, modelling independent callers. -/
def exec_ops : List DispOp → List Nat → List Nat
  | [], l => l
  | DispOp.alloc :: ops, l => exec_ops ops (find_display l).2
  | DispOp.release d :: ops, l =>
    match free_display d l with
    | some l2 => exec_ops ops l2
    | none => exec_ops ops l

/-- Decidable check that `_find_display` at state `l` returns the least
free index and merely inserts it: the result is not allocated, every
smaller index is allocated, and the new set is the old set plus the
result. -/
def alloc_ok (l : List Nat) : Bool :=
  let d := (find_display l).1
  !(decide (d ∈ l)) && (List.range d).all (fun j => decide (j ∈ l)) &&
    decide ((find_display l).2 = l ++ [d])

/-- Decidable check that after releasing any allocated index d, the next
allocation returns an index no larger than d (the freed smallest index is
reused before any larger one). -/
def reuse_ok (l : List Nat) : Bool :=
  l.all fun d =>
    match free_display d l with
    | some l2 => decide ((find_display l2).1 ≤ d)
    | none => true

/-! ## Monkey (src/monkey.py) -/

/-- Observable behaviour of the test-runner Popen handle at the moment
`Monkey.kill` runs: whether `poll()` reports an exit status. A pid whose
exit status has been collected by poll() has been reaped, so a subsequent
`os.kill` on it raises OSError errno 3 (no such process). -/
structure RunnerProc where
  exited : Bool
deriving Repr, DecidableEq

/-- The attributes of a Monkey instance that its methods consult. The
runner handle and the wait-greenlet handle are `none` when the Python
attribute is None; `tempdir` is the extracted-archive directory. -/
structure MonkeyState where
  runner : Option RunnerProc
  thread : Bool
  tempdir : Option Nat
  consolePort : Nat
deriving Repr, DecidableEq

/-- Observable actions Monkey.kill can perform on the outside world. -/
inductive MonkeyAction where
  | killRunner
  | joinThread
deriving Repr, DecidableEq

/-- `Popen.kill` = `os.kill(pid, SIGKILL)`: on a pid already reaped by
poll() this raises OSError errno 3; on a live child it succeeds. -/
def popen_kill (r : RunnerProc) : Except PyErr Unit :=
  if r.exited then Except.error (PyErr.osError 3) else Except.ok ()

/-- Monkey.kill (monkey.py lines 85-93):
  if self.runner:
      if self.runner.poll() is not None:
          self.runner.kill()
      self.runner = None
  if self.thread:
      self.thread.join()
      self.thread = None
Note the poll() condition: kill() is invoked only when poll() is NOT
None, i.e. only when the process has already exited. thread.join blocks
until the wait greenlet finishes; elapsed time is not modelled. -/
def monkey_kill (m : MonkeyState) : List MonkeyAction × Except PyErr MonkeyState :=
  let step1 : List MonkeyAction × Except PyErr MonkeyState :=
    match m.runner with
    | none => ([], Except.ok m)
    | some r =>
      if r.exited then
        match popen_kill r with
        | Except.error e => ([MonkeyAction.killRunner], Except.error e)
        | Except.ok _ => ([MonkeyAction.killRunner], Except.ok { m with runner := none })
      else ([], Except.ok { m with runner := none })
  match step1 with
  | (acts, Except.error e) => (acts, Except.error e)
  | (acts, Except.ok m1) =>
    if m1.thread then (acts ++ [MonkeyAction.joinThread], Except.ok { m1 with thread := false })
    else (acts, Except.ok m1)

/-- A filesystem recording which temporary directories exist; mkdtemp
returns fresh names drawn from a counter. -/
structure FS where
  tmpdirs : List Nat
  next : Nat
deriving Repr, DecidableEq

/-- `tempfile.mkdtemp()`: creates a fresh uniquely-named directory. -/
def fs_mkdtemp (fs : FS) : Nat × FS :=
  (fs.next, { tmpdirs := fs.tmpdirs ++ [fs.next], next := fs.next + 1 })

/-- Monkey.__init__ (monkey.py lines 11-34): checks the two settings
paths (raising before any directory is created when one is unset), then
creates self.tempdir with mkdtemp, then opens the archive with ZipFile
and extracts it into tempdir. A malformed archive makes ZipFile raise
BadZipfile after the directory was already created; nothing removes the
directory on that path. -/
def monkey_init (loghash_path runner_path : Option String) (archive_ok : Bool)
    (console_port : Nat) (fs : FS) : FS × Except PyErr MonkeyState :=
  match loghash_path, runner_path with
  | some _, some _ =>
    let (d, fs1) := fs_mkdtemp fs
    if archive_ok then
      (fs1, Except.ok { runner := none, thread := false, tempdir := some d,
                        consolePort := console_port })
    else
      (fs1, Except.error PyErr.badZipfile)
  | _, _ =>
    (fs, Except.error (PyErr.exception "Cannot run test, variables not set."))

/-! ## Emulator (src/emulator.py) -/

/-- Observable behaviour of a supervised Popen handle during
Emulator._kill_process: whether the pid was already reaped when the kill
signal is sent (os.kill then raises OSError errno 3), and whether poll()
reports an exit status at the i-th 100 ms polling step. For a child
process owned by the controller these are the only possible os.kill
outcomes. -/
structure SupProc where
  reapedAtKill : Bool
  pollExited : Nat → Bool

/-- The `settings` module the code imports: static configuration. -/
structure Settings where
  debugEnabled : Bool
  sslRoot : Option String
  qemuBin : String
  qemuDir : String
  qemuImageRoot : String
  qemuMicroImage : String
  qemuMicroImageNoWatchdog : String
  pkjsBin : String
  pkjsVirtualenv : String
  gdbserverBin : String
  cloudpebbleGdbBin : String

/-- A process spawned with subprocess.Popen: its argument vector, the cwd
argument given to Popen (`none` means the child inherits the controller
process working directory), the TZ entry of an overriding environment,
and the strings written to its stdin after spawning. -/
structure SpawnRec where
  args : List String
  cwdArg : Option String
  envTZ : Option String
  stdinWrites : List String
deriving Repr, DecidableEq

/-- Ambient state of the controller process and of the OS facilities the
code uses: the controller working directory (mutated by os.chdir), the
stream of ports the OS hands out from bind-to-port-0, the stream of fresh
tempfile/tempdir names, the module-level `_used_displays` set, the stream
of behaviours of processes yet to be spawned, and the log of performed
spawns. -/
structure Ctrl where
  cwd : String
  portStream : Nat → Nat
  portIdx : Nat
  tmpStream : Nat → String
  tmpIdx : Nat
  displays : List Nat
  procStream : Nat → SupProc
  procIdx : Nat
  spawned : List SpawnRec

/-- `Emulator._find_port`: bind to port 0, read the OS-assigned port,
close the socket, return the number. -/
def find_port (c : Ctrl) : Nat × Ctrl :=
  (c.portStream c.portIdx, { c with portIdx := c.portIdx + 1 })

/-- `tempfile.NamedTemporaryFile(delete=False)` / `tempfile.mkdtemp()`:
a fresh unique name. -/
def fresh_tmp (c : Ctrl) : String × Ctrl :=
  (c.tmpStream c.tmpIdx, { c with tmpIdx := c.tmpIdx + 1 })

/-- `subprocess.Popen(...)`: records the spawn and hands out the next
process behaviour. -/
def popen (c : Ctrl) (rec : SpawnRec) : SupProc × Ctrl :=
  (c.procStream c.procIdx,
   { c with procIdx := c.procIdx + 1, spawned := c.spawned ++ [rec] })

/-- The attributes of an Emulator instance (emulator.py lines 28-47).
Port attributes are `none` while still Python None; `group` is true once
`run` has created the gevent pool. -/
structure EmuState where
  settings : Settings
  token : String
  platform : String
  version : String
  tzOffset : Int
  oauth : Option String
  debug : Bool
  consolePort : Option Nat
  btPort : Option Nat
  wsPort : Option Nat
  vncDisplay : Option Int
  vncWsPort : Option Nat
  qemuGdbPort : Option Nat
  gdbserverPort : Option Nat
  gdbWsPort : Option Nat
  qemu : Option SupProc
  pkjs : Option SupProc
  gdbserver : Option SupProc
  gdb : Option SupProc
  spiImage : Option String
  persistDir : Option String
  group : Bool

/-- The attribute state Emulator.__init__ establishes. -/
def initState (st : Settings) (token platform version : String) (tzOffset : Int)
    (oauth : Option String) (debug : Bool) : EmuState :=
  { settings := st, token := token, platform := platform, version := version,
    tzOffset := tzOffset, oauth := oauth, debug := debug,
    consolePort := none, btPort := none, wsPort := none, vncDisplay := none,
    vncWsPort := none, qemuGdbPort := none, gdbserverPort := none,
    gdbWsPort := none, qemu := none, pkjs := none, gdbserver := none,
    gdb := none, spiImage := none, persistDir := none, group := false }

/-- Emulator.__init__ (lines 25-47): raises when debug is requested while
settings.DEBUG_ENABLED is unset, before any resource is touched;
otherwise records the configuration with every resource attribute None. -/
def emu_init (st : Settings) (token platform version : String) (tzOffset : Int)
    (oauth : Option String) (debug : Bool) : Except PyErr EmuState :=
  if debug && !st.debugEnabled then
    Except.error (PyErr.exception "Cannot enable debug without DEBUG_ENABLED set.")
  else
    Except.ok (initState st token platform version tzOffset oauth debug)

/-- `Emulator._find_qemu_images`. -/
def find_qemu_images (s : EmuState) : String :=
  s.settings.qemuImageRoot ++ "/" ++ s.platform ++ "/" ++ s.version ++ "/"

/-- Emulator._choose_ports (lines 104-113): five ephemeral ports always,
and the three gdb-related ports only in debug mode. The VNC display index
is an ephemeral port minus 5900. -/
def choose_ports (s : EmuState) (c : Ctrl) : EmuState × Ctrl :=
  let (p1, c) := find_port c
  let (p2, c) := find_port c
  let (p3, c) := find_port c
  let (p4, c) := find_port c
  let (p5, c) := find_port c
  let s := { s with consolePort := some p1, btPort := some p2, wsPort := some p3,
                    vncDisplay := some ((p4 : Int) - 5900), vncWsPort := some p5 }
  if s.debug then
    let (p6, c) := find_port c
    let (p7, c) := find_port c
    let (p8, c) := find_port c
    ({ s with qemuGdbPort := some p6, gdbserverPort := some p7, gdbWsPort := some p8 }, c)
  else (s, c)

/-- Emulator._make_spi_image (lines 115-119): creates a named temporary
file (delete=False) and copies the template qemu_spi_flash.bin into it.
The template read is modelled as succeeding. -/
def make_spi_image (s : EmuState) (c : Ctrl) : EmuState × Ctrl :=
  let (nm, c) := fresh_tmp c
  ({ s with spiImage := some nm }, c)

/-- Emulator._kill_process polling loop (lines 86-89): up to 10 polls at
100 ms intervals, stopping at the first one that reports an exit. -/
def poll_loop (p : SupProc) : Nat → Nat → Bool
  | 0, _ => false
  | Nat.succ fuel, i => if p.pollExited i then true else poll_loop p fuel (i + 1)

/-- Emulator._kill_process (lines 83-96): sends proc.kill(); an OSError
with errno 3 (process already reaped) is absorbed as success; otherwise
polls ten times and raises Exception when the process still has not
exited. The raised Exception is not an OSError, so the surrounding
except clause does not catch it. -/
def kill_process (p : SupProc) : Except PyErr Unit :=
  if p.reapedAtKill then Except.ok ()
  else if poll_loop p 10 0 then Except.ok ()
  else Except.error (PyErr.exception "Failed to kill process in one second.")

/-- Names of the processes Emulator.kill attempts to terminate. -/
inductive ProcName where
  | qemu
  | pkjs
  | gdbserver
  | gdb
deriving Repr, DecidableEq

/-- Observable actions of Emulator.kill, in program order. -/
inductive KillEvent where
  | termAttempt (p : ProcName)
  | unlinkSpi
  | rmtreePersist
  | groupKill
  | freeDisplay (d : Nat)
deriving Repr, DecidableEq

/-- Sequencing of kill steps: a raised exception aborts the remaining
steps, keeping the events already performed. -/
def seqStep (a b : List KillEvent × Except PyErr Unit) :
    List KillEvent × Except PyErr Unit :=
  match a with
  | (evs, Except.error e) => (evs, Except.error e)
  | (evs, Except.ok _) => (evs ++ b.1, b.2)

/-- The qemu branch of Emulator.kill (lines 60-65): when the handle is
not None, terminate it and then unlink the spi image, swallowing OSError
from the unlink. Accessing `self.spi_image.name` with spi_image still
None would raise AttributeError. -/
def killQemuStep (s : EmuState) : List KillEvent × Except PyErr Unit :=
  match s.qemu with
  | none => ([], Except.ok ())
  | some p =>
    match kill_process p with
    | Except.error e => ([KillEvent.termAttempt ProcName.qemu], Except.error e)
    | Except.ok _ =>
      match s.spiImage with
      | none => ([KillEvent.termAttempt ProcName.qemu],
                 Except.error (PyErr.attributeError "NoneType object has no attribute name"))
      | some _ => ([KillEvent.termAttempt ProcName.qemu, KillEvent.unlinkSpi], Except.ok ())

/-- One of the plain `if self.X is not None: self._kill_process(self.X)`
branches of Emulator.kill (lines 66-71). -/
def killProcStep (n : ProcName) (po : Option SupProc) :
    List KillEvent × Except PyErr Unit :=
  match po with
  | none => ([], Except.ok ())
  | some p =>
    match kill_process p with
    | Except.error e => ([KillEvent.termAttempt n], Except.error e)
    | Except.ok _ => ([KillEvent.termAttempt n], Except.ok ())

/-- The `shutil.rmtree(self.persist_dir)` step (lines 72-75): OSError is
swallowed, but calling rmtree on None raises TypeError inside
os.path.islink, which the `except OSError` clause does not catch. -/
def rmtreeStep (s : EmuState) : List KillEvent × Except PyErr Unit :=
  match s.persistDir with
  | none => ([], Except.error
      (PyErr.typeError "coercing to Unicode: need string or buffer, NoneType found"))
  | some _ => ([KillEvent.rmtreePersist], Except.ok ())

/-- The `self.group.kill(block=True)` step (line 76): raises
AttributeError when `run` was never called and group is still None. -/
def groupStep (s : EmuState) : List KillEvent × Except PyErr Unit :=
  if s.group then ([KillEvent.groupKill], Except.ok ())
  else ([], Except.error (PyErr.attributeError "NoneType object has no attribute kill"))

/-- Emulator.kill (lines 59-76), as the sequence of its observable
actions together with the exception it raises, if any. The display set
is not consulted or modified anywhere in kill. -/
def emuKill (s : EmuState) : List KillEvent × Except PyErr Unit :=
  seqStep (killQemuStep s)
    (seqStep (killProcStep ProcName.pkjs s.pkjs)
      (seqStep (killProcStep ProcName.gdbserver s.gdbserver)
        (seqStep (killProcStep ProcName.gdb s.gdb)
          (seqStep (rmtreeStep s) (groupStep s)))))

/-- Emulator._spawn_qemu (lines 130-163). Builds the qemu argument
vector; in debug mode line 147 references the name `qemu_params`, which
is not defined anywhere (the list is called `qemu_args`), so CPython
raises NameError there, before the platform-specific arguments and the
Popen call. Port formatting with a still-None port would raise TypeError
inside the % operator. -/
def spawn_qemu (s : EmuState) (c : Ctrl) : EmuState × Ctrl × Option PyErr :=
  let x509 := match s.settings.sslRoot with
    | some r => ",x509=" ++ r
    | none => ""
  let image_dir := find_qemu_images s
  match s.btPort, s.consolePort, s.vncDisplay, s.vncWsPort with
  | some bt, some console, some vd, some vncws =>
    let qemu_args := [
      s.settings.qemuBin,
      "-rtc", "base=localtime",
      "-pflash", image_dir ++ "qemu_micro_flash.bin",
      "-serial", "null",
      "-serial", "tcp:127.0.0.1:" ++ toString bt ++ ",server,nowait",
      "-serial", "tcp:127.0.0.1:" ++ toString console ++ ",server,nowait",
      "-monitor", "stdio",
      "-vnc", ":" ++ toString vd ++ ",password,websocket=" ++ toString vncws ++ x509
    ]
    if s.debug then
      (s, c, some (PyErr.nameError "qemu_params"))
    else
      match s.spiImage with
      | none => (s, c, some (PyErr.attributeError "NoneType object has no attribute name"))
      | some spi =>
        let qemu_args :=
          if s.platform = "aplite" then
            qemu_args ++ ["-machine", "pebble-bb2", "-mtdblock", spi, "-cpu", "cortex-m3"]
          else if s.platform = "basalt" then
            qemu_args ++ ["-machine", "pebble-snowy-bb", "-pflash", spi, "-cpu", "cortex-m4"]
          else qemu_args
        let (proc, c) := popen c
          { args := qemu_args, cwdArg := some s.settings.qemuDir, envTZ := none,
            stdinWrites := ["change vnc password\n", s.token.take 8 ++ "\n"] }
        ({ s with qemu := some proc }, c, none)
  | _, _, _, _ => (s, c, some (PyErr.typeError "int argument required"))

/-- os.path.dirname for POSIX paths: everything up to the last slash,
with trailing slashes stripped unless the head is all slashes. -/
def dirname (p : String) : String :=
  let cs := p.toList
  let tailLen := (cs.reverse.takeWhile (fun ch => ch ≠ Char.ofNat 47)).length
  let head := cs.take (cs.length - tailLen)
  if head.isEmpty then ""
  else if head.all (fun ch => ch = Char.ofNat 47) then String.mk head
  else String.mk ((head.reverse.dropWhile (fun ch => ch = Char.ofNat 47)).reverse)

/-- Emulator._spawn_pkjs (lines 165-188). The first statement is
`os.chdir(os.path.dirname(settings.PKJS_BIN))`, which changes the working
directory of the controller process itself; the subsequent Popen passes
no cwd argument, so the child merely inherits it. Builds the TZ string,
creates the persistence directory, and spawns the runtime. -/
def spawn_pkjs (s : EmuState) (c : Ctrl) : EmuState × Ctrl × Option PyErr :=
  let c := { c with cwd := dirname s.settings.pkjsBin }
  let ssl_args := match s.settings.sslRoot with
    | some r => ["--ssl-root", r]
    | none => []
  let tz := tzString s.tzOffset
  let oauth_arg := match s.oauth with
    | some o => ["--oauth", o]
    | none => []
  let (pd, c) := fresh_tmp c
  let s := { s with persistDir := some pd }
  match s.btPort, s.wsPort with
  | some bt, some ws =>
    let (proc, c) := popen c
      { args := [s.settings.pkjsVirtualenv ++ "/bin/python", s.settings.pkjsBin,
                 "--qemu", "127.0.0.1:" ++ toString bt,
                 "--port", toString ws,
                 "--token", s.token,
                 "--persist", pd] ++ oauth_arg ++ ssl_args,
        cwdArg := none, envTZ := some tz, stdinWrites := [] }
    ({ s with pkjs := some proc }, c, none)
  | _, _ => (s, c, some (PyErr.typeError "int argument required"))

/-- Emulator._spawn_gdb (lines 190-205): spawns the gdbserver bridging
its port to the emulator gdb endpoint, then the websocket debug bridge.
The literal "--token " argument keeps the trailing space present in the
source. -/
def spawn_gdb (s : EmuState) (c : Ctrl) : EmuState × Ctrl × Option PyErr :=
  match s.gdbserverPort, s.qemuGdbPort, s.gdbWsPort with
  | some gsp, some qgp, some gwp =>
    let (p1, c) := popen c
      { args := [s.settings.gdbserverBin, "--port=" ++ toString gsp,
                 "--target=127.0.0.1:" ++ toString qgp],
        cwdArg := none, envTZ := none, stdinWrites := [] }
    let s := { s with gdbserver := some p1 }
    let (p2, c) := popen c
      { args := [s.settings.cloudpebbleGdbBin,
                 "--gdbserver", "127.0.0.1:" ++ toString gsp,
                 "--port", toString gwp,
                 "--token ", s.token],
        cwdArg := none, envTZ := none, stdinWrites := [] }
    ({ s with gdb := some p2 }, c, none)
  | _, _, _ => (s, c, some (PyErr.typeError "int argument required"))

/-- Emulator.run (lines 49-57): create the gevent pool, choose ports,
stage the flash image, spawn qemu, sleep 4 seconds for boot (no state
effect), spawn the debug pair when in debug mode, then spawn the device
runtime. An exception from any step propagates, keeping the partial
attribute updates performed so far. -/
def run (s : EmuState) (c : Ctrl) : EmuState × Ctrl × Option PyErr :=
  let s := { s with group := true }
  let (s, c) := choose_ports s c
  let (s, c) := make_spi_image s c
  match spawn_qemu s c with
  | (s, c, some e) => (s, c, some e)
  | (s, c, none) =>
    if s.debug then
      match spawn_gdb s c with
      | (s, c, some e) => (s, c, some e)
      | (s, c, none) => spawn_pkjs s c
    else spawn_pkjs s c

/-- Resolution of a relative path by a process: against its current
working directory. -/
def resolveRel (c : Ctrl) (rel : String) : String :=
  c.cwd ++ "/" ++ rel

/-! ## Trace checks used by the ordering claims -/

/-- Is this event an artifact removal (flash-image unlink or persistence
directory removal)? -/
def isRemoval : KillEvent → Bool
  | KillEvent.unlinkSpi => true
  | KillEvent.rmtreePersist => true
  | _ => false

/-- Scan check: no termination attempt occurs after any artifact-removal
event. The flag records whether a removal has been seen. -/
def termsBeforeRemovals : List KillEvent → Bool → Bool
  | [], _ => true
  | KillEvent.termAttempt _ :: rest, seen => !seen && termsBeforeRemovals rest seen
  | e :: rest, seen => termsBeforeRemovals rest (seen || isRemoval e)

/-- Scan check: every flash-image unlink is preceded by a termination
attempt on the qemu process. The flag records whether qemu has been
terminated. -/
def unlinkOnlyAfterQemuTerm : List KillEvent → Bool → Bool
  | [], _ => true
  | KillEvent.termAttempt n :: rest, seen =>
    unlinkOnlyAfterQemuTerm rest (seen || decide (n = ProcName.qemu))
  | KillEvent.unlinkSpi :: rest, seen => seen && unlinkOnlyAfterQemuTerm rest seen
  | _ :: rest, seen => unlinkOnlyAfterQemuTerm rest seen

/-- Scan check: no termination attempt occurs after the persistence
directory removal. -/
def noTermAfterRmtree : List KillEvent → Bool → Bool
  | [], _ => true
  | KillEvent.termAttempt _ :: rest, seen => !seen && noTermAfterRmtree rest seen
  | KillEvent.rmtreePersist :: rest, _ => noTermAfterRmtree rest true
  | _ :: rest, seen => noTermAfterRmtree rest seen

/-- Check: kill performs no display release. -/
def noFreeDisplayEvent (l : List KillEvent) : Bool :=
  l.all fun e =>
    match e with
    | KillEvent.freeDisplay _ => false
    | _ => true

/-! ## Concrete sample inputs used by evaluation theorems -/

/-- A concrete static configuration. -/
def sampleSettings : Settings :=
  { debugEnabled := false, sslRoot := none, qemuBin := "qemu-pebble",
    qemuDir := "/opt/qemu", qemuImageRoot := "/opt/images",
    qemuMicroImage := "micro.bin", qemuMicroImageNoWatchdog := "micro-nw.bin",
    pkjsBin := "/opt/pypkjs/jskit.py", pkjsVirtualenv := "/opt/venv",
    gdbserverBin := "pebble-gdbserver", cloudpebbleGdbBin := "cp-gdb-bridge" }

/-- A process behaviour that dies promptly: already reaped at kill time. -/
def deadProc : SupProc :=
  { reapedAtKill := true, pollExited := fun _ => true }

/-- A process behaviour that never exits within the polling window. -/
def stuckProc : SupProc :=
  { reapedAtKill := false, pollExited := fun _ => false }

/-- A concrete ambient controller state. -/
def sampleCtrl : Ctrl :=
  { cwd := "/srv/controller", portStream := fun n => 50000 + n, portIdx := 0,
    tmpStream := fun n => "/tmp/t" ++ toString n, tmpIdx := 0, displays := [],
    procStream := fun _ => deadProc, procIdx := 0, spawned := [] }

/-- A fully-started non-debug session state with timezone offset `off`:
what the attributes hold after a successful run. -/
def sampleState (off : Int) : EmuState :=
  { settings := sampleSettings, token := "SESSIONTOKEN", platform := "basalt",
    version := "3.8", tzOffset := off, oauth := none, debug := false,
    consolePort := some 50000, btPort := some 50001, wsPort := some 50002,
    vncDisplay := some 44103, vncWsPort := some 50004, qemuGdbPort := none,
    gdbserverPort := none, gdbWsPort := none, qemu := some deadProc,
    pkjs := some deadProc, gdbserver := none, gdb := none,
    spiImage := some "/tmp/t0", persistDir := some "/tmp/t1", group := true }

/-- The sample state with every owned process handle present, as in a
debug session after a full start. -/
def fullDebugState : EmuState :=
  { (sampleState 0) with
    debug := true, qemuGdbPort := some 50005,
    gdbserverPort := some 50006, gdbWsPort := some 50007,
    gdbserver := some deadProc, gdb := some deadProc }

/-! ## Helper lemmas -/

/-- The polling loop reports no exit exactly when poll() reports no exit
at any of the `fuel` steps starting from step `i`. -/
theorem poll_loop_eq_false_iff (p : SupProc) :
    ∀ fuel i, poll_loop p fuel i = false ↔ ∀ j, j < fuel → p.pollExited (i + j) = false := by
  intro fuel
  induction fuel with
  | zero =>
    intro i
    simp [poll_loop]
  | succ n ih =>
    intro i
    by_cases h : p.pollExited i
    · have hstep : poll_loop p (n + 1) i = true := by
        simp [poll_loop, h]
      rw [hstep]
      constructor
      · intro hfalse
        cases hfalse
      · intro hall
        have h0 := hall 0 (Nat.succ_pos n)
        rw [Nat.add_zero] at h0
        simp [h] at h0
    · have hfalse : p.pollExited i = false := by simpa using h
      have hstep : poll_loop p (n + 1) i = poll_loop p n (i + 1) := by
        simp [poll_loop, hfalse]
      rw [hstep]
      rw [ih (i + 1)]
      constructor
      · intro hall j hj
        cases j with
        | zero => simpa using h
        | succ k =>
          have := hall k (by omega)
          have heq : i + 1 + k = i + (k + 1) := by omega
          rw [heq] at this
          exact this
      · intro hall j hj
        have := hall (j + 1) (by omega)
        have heq : i + (j + 1) = i + 1 + j := by omega
        rw [heq] at this
        exact this

/-- Correctness of the `_find_display` scanning loop: given enough fuel
to reach a free index, the loop returns an index that is free, at least
the starting point, and with every index between the starting point and
the result allocated. -/
theorem find_free_spec (l : List Nat) :
    ∀ fuel i, (∃ k, k < fuel ∧ (i + k) ∉ l) →
      find_free l fuel i ∉ l ∧ i ≤ find_free l fuel i ∧
      ∀ j, i ≤ j → j < find_free l fuel i → j ∈ l := by
  intro fuel
  induction fuel with
  | zero =>
    rintro i ⟨k, hk, _⟩
    omega
  | succ n ih =>
    rintro i ⟨k, hk, hkm⟩
    by_cases hi : i ∈ l
    · have hk0 : k ≠ 0 := by
        rintro rfl
        rw [Nat.add_zero] at hkm
        exact hkm hi
      have hrec := ih (i + 1) ⟨k - 1, by omega, by
        have heq : i + 1 + (k - 1) = i + k := by omega
        rw [heq]
        exact hkm⟩
      have hstep : find_free l (n + 1) i = find_free l n (i + 1) := by
        simp [find_free, hi]
      rw [hstep]
      refine ⟨hrec.1, by omega, ?_⟩
      intro j hij hjr
      rcases Nat.eq_or_lt_of_le hij with heq | hlt
      · rw [← heq]
        exact hi
      · exact hrec.2.2 j (by omega) hjr
    · have hstep : find_free l (n + 1) i = i := by
        simp [find_free, hi]
      rw [hstep]
      exact ⟨hi, Nat.le_refl i, by intro j h1 h2; omega⟩

/-- Pigeonhole: a list of length n cannot contain every one of the n+1
numbers 0..n, so some index up to the length is free. -/
theorem exists_le_length_not_mem (l : List Nat) : ∃ k, k ≤ l.length ∧ k ∉ l := by
  by_contra h
  push_neg at h
  have hsub : Finset.range (l.length + 1) ⊆ l.toFinset := by
    intro k hk
    rw [Finset.mem_range] at hk
    rw [List.mem_toFinset]
    exact h k (by omega)
  have hcard := Finset.card_le_card hsub
  rw [Finset.card_range] at hcard
  have hle := l.toFinset_card_le
  omega

/-- `_find_display` returns the least free index and inserts it. -/
theorem find_display_spec (l : List Nat) :
    (find_display l).1 ∉ l ∧ (∀ j, j < (find_display l).1 → j ∈ l) ∧
    (find_display l).2 = l ++ [(find_display l).1] := by
  obtain ⟨k, hk, hkm⟩ := exists_le_length_not_mem l
  have h := find_free_spec l (l.length + 1) 0 ⟨k, by omega, by simpa using hkm⟩
  refine ⟨h.1, ?_, ?_⟩
  · intro j hj
    exact h.2.2 j (Nat.zero_le j) hj
  · show set_add (find_free l (l.length + 1) 0) l = _
    unfold set_add
    rw [if_neg h.1]
    rfl

/-- Every state reachable by a sequence of allocator calls from a
duplicate-free set is duplicate-free. -/
theorem exec_ops_nodup : ∀ ops (l : List Nat), l.Nodup → (exec_ops ops l).Nodup := by
  intro ops
  induction ops with
  | nil =>
    intro l h
    exact h
  | cons op rest ih =>
    intro l h
    cases op with
    | alloc =>
      have hs := find_display_spec l
      simp only [exec_ops]
      apply ih
      rw [hs.2.2]
      simp [List.nodup_append, h, hs.1]
    | release d =>
      simp only [exec_ops]
      cases hf : free_display d l with
      | none => exact ih l h
      | some l2 =>
        apply ih
        unfold free_display set_remove at hf
        split at hf
        · cases hf
          exact h.erase d
        · cases hf

/-- Possible results of the qemu branch of Emulator.kill. -/
theorem killQemuStep_cases (s : EmuState) :
    killQemuStep s = ([], Except.ok ()) ∨
    (∃ e, killQemuStep s = ([KillEvent.termAttempt ProcName.qemu], Except.error e)) ∨
    killQemuStep s = ([KillEvent.termAttempt ProcName.qemu, KillEvent.unlinkSpi],
                      Except.ok ()) := by
  rcases hq : s.qemu with _ | p
  · left
    simp only [killQemuStep, hq]
  · rcases hk : kill_process p with e | u
    · right
      left
      refine ⟨e, ?_⟩
      simp only [killQemuStep, hq, hk]
    · rcases hsi : s.spiImage with _ | si
      · right
        left
        refine ⟨PyErr.attributeError "NoneType object has no attribute name", ?_⟩
        simp only [killQemuStep, hq, hk, hsi]
      · right
        right
        simp only [killQemuStep, hq, hk, hsi]

/-- Possible results of a plain termination branch of Emulator.kill. -/
theorem killProcStep_cases (n : ProcName) (po : Option SupProc) :
    killProcStep n po = ([], Except.ok ()) ∨
    (∃ e, killProcStep n po = ([KillEvent.termAttempt n], Except.error e)) ∨
    killProcStep n po = ([KillEvent.termAttempt n], Except.ok ()) := by
  rcases po with _ | p
  · left
    rfl
  · rcases hk : kill_process p with e | u
    · right
      left
      refine ⟨e, ?_⟩
      simp only [killProcStep, hk]
    · right
      right
      simp only [killProcStep, hk]

/-- Possible results of the rmtree step of Emulator.kill. -/
theorem rmtreeStep_cases (s : EmuState) :
    (∃ e, rmtreeStep s = ([], Except.error e)) ∨
    rmtreeStep s = ([KillEvent.rmtreePersist], Except.ok ()) := by
  rcases hp : s.persistDir with _ | d
  · left
    refine ⟨PyErr.typeError "coercing to Unicode: need string or buffer, NoneType found", ?_⟩
    simp only [rmtreeStep, hp]
  · right
    simp only [rmtreeStep, hp]

/-- Possible results of the group-kill step of Emulator.kill. -/
theorem groupStep_cases (s : EmuState) :
    groupStep s = ([KillEvent.groupKill], Except.ok ()) ∨
    (∃ e, groupStep s = ([], Except.error e)) := by
  unfold groupStep
  by_cases h : s.group
  · left
    rw [if_pos h]
  · right
    exact ⟨PyErr.attributeError "NoneType object has no attribute kill", by rw [if_neg h]⟩

set_option maxHeartbeats 1000000 in
/-- Emulator.kill event traces satisfy: the flash-image unlink only
follows the qemu termination attempt, no termination attempt follows the
persistence-directory removal, and no display index is ever released. -/
theorem emuKill_trace_checks (s : EmuState) :
    unlinkOnlyAfterQemuTerm (emuKill s).1 false = true
  ∧ noTermAfterRmtree (emuKill s).1 false = true
  ∧ noFreeDisplayEvent (emuKill s).1 = true := by
  rcases killQemuStep_cases s with h1 | ⟨e1, h1⟩ | h1 <;>
  rcases killProcStep_cases ProcName.pkjs s.pkjs with h2 | ⟨e2, h2⟩ | h2 <;>
  rcases killProcStep_cases ProcName.gdbserver s.gdbserver with h3 | ⟨e3, h3⟩ | h3 <;>
  rcases killProcStep_cases ProcName.gdb s.gdb with h4 | ⟨e4, h4⟩ | h4 <;>
  rcases rmtreeStep_cases s with ⟨e5, h5⟩ | h5 <;>
  rcases groupStep_cases s with h6 | ⟨e6, h6⟩ <;>
  simp [emuKill, seqStep, h1, h2, h3, h4, h5, h6, unlinkOnlyAfterQemuTerm,
        noTermAfterRmtree, noFreeDisplayEvent]

/-- choose_ports does not touch the display set. -/
theorem choose_ports_displays (s : EmuState) (c : Ctrl) :
    (choose_ports s c).2.displays = c.displays := by
  simp only [choose_ports, find_port]
  by_cases h : s.debug <;> simp [h]

/-- make_spi_image does not touch the display set. -/
theorem make_spi_image_displays (s : EmuState) (c : Ctrl) :
    (make_spi_image s c).2.displays = c.displays := rfl

/-- spawn_qemu does not touch the display set. -/
theorem spawn_qemu_displays (s : EmuState) (c : Ctrl) :
    (spawn_qemu s c).2.1.displays = c.displays := by
  simp only [spawn_qemu, popen]
  repeat' split
  all_goals rfl

/-- spawn_gdb does not touch the display set. -/
theorem spawn_gdb_displays (s : EmuState) (c : Ctrl) :
    (spawn_gdb s c).2.1.displays = c.displays := by
  simp only [spawn_gdb, popen]
  repeat' split
  all_goals rfl

/-- spawn_pkjs does not touch the display set. -/
theorem spawn_pkjs_displays (s : EmuState) (c : Ctrl) :
    (spawn_pkjs s c).2.1.displays = c.displays := by
  simp only [spawn_pkjs, popen, fresh_tmp]
  repeat' split
  all_goals rfl

/-- Emulator.run does not touch the display set: the session allocates
no virtual-display index through the display allocator. -/
theorem run_displays (s : EmuState) (c : Ctrl) :
    (run s c).2.1.displays = c.displays := by
  simp only [run]
  rcases hcp : choose_ports { s with group := true } c with ⟨s1, c1⟩
  have hc1 : c1.displays = c.displays := by
    have h := choose_ports_displays { s with group := true } c
    rw [hcp] at h
    exact h
  rcases hms : make_spi_image s1 c1 with ⟨s2, c2⟩
  have hc2 : c2.displays = c1.displays := by
    have h := make_spi_image_displays s1 c1
    rw [hms] at h
    exact h
  rcases hq : spawn_qemu s2 c2 with ⟨s3, c3, err⟩
  have hc3 : c3.displays = c2.displays := by
    have h := spawn_qemu_displays s2 c2
    rw [hq] at h
    exact h
  cases err with
  | some e =>
    simp only []
    rw [hc3, hc2, hc1]
  | none =>
    simp only []
    by_cases hd : s3.debug
    · rw [if_pos hd]
      rcases hg : spawn_gdb s3 c3 with ⟨s4, c4, err2⟩
      have hc4 : c4.displays = c3.displays := by
        have h := spawn_gdb_displays s3 c3
        rw [hg] at h
        exact h
      cases err2 with
      | some e2 =>
        simp only []
        rw [hc4, hc3, hc2, hc1]
      | none =>
        simp only []
        have h := spawn_pkjs_displays s4 c4
        rw [h, hc4, hc3, hc2, hc1]
    · rw [if_neg hd]
      have h := spawn_pkjs_displays s3 c3
      rw [h, hc3, hc2, hc1]

/-! ## Claim theorems -/

/-- C1: evaluation of Monkey.kill at the two runner situations. With the
runner still running (poll() is None) the code performs no kill action at
all — it only clears the handle and joins the wait greenlet; with the
runner already exited (poll() not None) the code calls Popen.kill on the
reaped pid, which raises OSError errno 3 instead of being a no-op. This
contradicts the claim that a running runner is forcibly terminated and an
exited runner is handled without raising. -/
theorem monkey_kill_inverted_eval :
    monkey_kill { runner := some { exited := false }, thread := true,
                  tempdir := some 0, consolePort := 8000 } =
      ([MonkeyAction.joinThread],
       Except.ok { runner := none, thread := false, tempdir := some 0, consolePort := 8000 })
  ∧ monkey_kill { runner := some { exited := true }, thread := true,
                  tempdir := some 0, consolePort := 8000 } =
      ([MonkeyAction.killRunner], Except.error (PyErr.osError 3)) :=
  ⟨rfl, rfl⟩

/-- C2: a session whose start failed before _spawn_pkjs (here: a debug
session, whose start raises NameError inside _spawn_qemu) has
persist_dir still None; calling kill on it reaches
shutil.rmtree(self.persist_dir) with None, which raises TypeError — not
an OSError, so the surrounding except clause does not catch it, and stop
raises instead of never raising. The empty event list also shows the
staged flash image is not removed on this path (the unlink is nested
under the qemu branch and qemu is None). -/
theorem emulator_kill_partial_state_raises (st : Settings) (tok plat ver : String)
    (tz : Int) (oauth : Option String) (c : Ctrl) :
    emuKill (run (initState { st with debugEnabled := true } tok plat ver tz oauth true) c).1
      = ([], Except.error (PyErr.typeError
          "coercing to Unicode: need string or buffer, NoneType found")) := rfl

/-- C3: evaluation of the TZ environment string handed to the
device-runtime process. Offsets 0 and 120 give the values the claim
states, but offset -90 gives PBL+02:30 (Python floor division makes
hours = -2, minutes = 30), not the claimed PBL+01:30. -/
theorem pkjs_tz_env_eval :
    ((spawn_pkjs (sampleState (-90)) sampleCtrl).2.1.spawned.map SpawnRec.envTZ
      = [some "PBL+02:30"])
  ∧ ((spawn_pkjs (sampleState 0) sampleCtrl).2.1.spawned.map SpawnRec.envTZ
      = [some "PBL+00:00"])
  ∧ ((spawn_pkjs (sampleState 120) sampleCtrl).2.1.spawned.map SpawnRec.envTZ
      = [some "PBL-02:00"])
  ∧ tzString (-90) = "PBL+02:30" :=
  ⟨rfl, rfl, rfl, rfl⟩

/-- C4 counterexample: in a fully-populated session, the kill trace
violates the claim that all process terminations are attempted before
any artifact removal: the flash-image unlink happens right after the
qemu termination and before the pkjs/gdbserver/gdb terminations. -/
theorem emulator_kill_ordering_counterexample :
    termsBeforeRemovals (emuKill fullDebugState).1 false = false := rfl

/-- C4 amended: within Emulator.kill, the flash-image unlink follows the
qemu termination attempt (though not the other terminations), the
persistence-directory removal follows every termination attempt, and no
display index is released — matching the fact that run never allocates
any display index through the display allocator, so none is ever left
allocated. -/
theorem emulator_kill_ordering_amended (s : EmuState) (c : Ctrl) :
    unlinkOnlyAfterQemuTerm (emuKill s).1 false = true
  ∧ noTermAfterRmtree (emuKill s).1 false = true
  ∧ noFreeDisplayEvent (emuKill s).1 = true
  ∧ (run s c).2.1.displays = c.displays :=
  ⟨(emuKill_trace_checks s).1, (emuKill_trace_checks s).2.1,
   (emuKill_trace_checks s).2.2, run_displays s c⟩

/-- C5: with debug permitted by the configuration, construction succeeds,
but start then raises NameError (line 147 references the undefined name
qemu_params) inside _spawn_qemu, before any process is spawned — the
debug launch sequence never completes and neither gdbserver nor the
debug bridge is ever spawned. -/
theorem debug_start_raises_name_error (st : Settings) (tok plat ver : String)
    (tz : Int) (oauth : Option String) (c : Ctrl) :
    emu_init { st with debugEnabled := true } tok plat ver tz oauth true
      = Except.ok (initState { st with debugEnabled := true } tok plat ver tz oauth true)
  ∧ (run (initState { st with debugEnabled := true } tok plat ver tz oauth true) c).2.2
      = some (PyErr.nameError "qemu_params")
  ∧ (run (initState { st with debugEnabled := true } tok plat ver tz oauth true) c).2.1.spawned
      = c.spawned :=
  ⟨rfl, rfl, rfl⟩

/-- C6: Emulator._kill_process raises its fatal termination error
exactly when the kill signal found a live process and none of the ten
100 ms polls observed an exit; a process already reaped at signal time
(os.kill raises no-such-process) is treated as success. -/
theorem kill_process_error_iff (p : SupProc) :
    (kill_process p = Except.error (PyErr.exception "Failed to kill process in one second.")
      ↔ p.reapedAtKill = false ∧ ∀ i, i < 10 → p.pollExited i = false)
  ∧ kill_process { p with reapedAtKill := true } = Except.ok () := by
  constructor
  · constructor
    · intro h
      by_cases hr : p.reapedAtKill
      · simp only [kill_process, hr, if_true] at h
        cases h
      · have hrf : p.reapedAtKill = false := by simpa using hr
        refine ⟨hrf, ?_⟩
        intro i hi
        by_cases hl : poll_loop p 10 0 = true
        · simp only [kill_process, hrf, hl, if_true, Bool.false_eq_true, if_false] at h
          cases h
        · have hlf : poll_loop p 10 0 = false := by simpa using hl
          have hall := (poll_loop_eq_false_iff p 10 0).mp hlf
          have hthis := hall i hi
          simpa using hthis
    · rintro ⟨hr, hall⟩
      have hlf : poll_loop p 10 0 = false := by
        rw [poll_loop_eq_false_iff]
        intro j hj
        simpa using hall j hj
      simp [kill_process, hr, hlf]
  · simp [kill_process]

/-- C6 witness: a process that never exits within the polling window
makes _kill_process raise the fatal error. -/
theorem kill_process_error_iff_witness :
    kill_process stuckProc
      = Except.error (PyErr.exception "Failed to kill process in one second.") :=
  (kill_process_error_iff stuckProc).1.mpr ⟨rfl, fun _ _ => rfl⟩

/-- C7: after any sequence of _find_display/_free_display calls starting
from the empty set, the set is duplicate-free, the next allocation
returns the smallest unallocated index and merely inserts it, and after
releasing any allocated index the next allocation returns an index no
larger than the released one (the freed smallest index is reused before
any larger one). -/
theorem display_allocator_invariants (ops : List DispOp) :
    (exec_ops ops []).Nodup ∧ alloc_ok (exec_ops ops []) = true ∧
    reuse_ok (exec_ops ops []) = true := by
  have hnd : (exec_ops ops []).Nodup := exec_ops_nodup ops [] List.nodup_nil
  refine ⟨hnd, ?_, ?_⟩
  · have hs := find_display_spec (exec_ops ops [])
    unfold alloc_ok
    simp only [Bool.and_eq_true, Bool.not_eq_true', decide_eq_false_iff_not,
               decide_eq_true_eq, List.all_eq_true, List.mem_range]
    exact ⟨⟨hs.1, fun j hj => hs.2.1 j hj⟩, hs.2.2⟩
  · unfold reuse_ok
    rw [List.all_eq_true]
    intro d hd
    have hfd : free_display d (exec_ops ops [])
        = some ((exec_ops ops []).erase d) := by
      unfold free_display set_remove
      rw [if_pos hd]
    simp only [hfd, decide_eq_true_eq]
    by_contra hgt
    push_neg at hgt
    have hs2 := find_display_spec ((exec_ops ops []).erase d)
    have hdm : d ∈ (exec_ops ops []).erase d := hs2.2.1 d hgt
    rw [List.Nodup.mem_erase_iff hnd] at hdm
    exact hdm.1 rfl

/-- C8 counterexample: releasing index 0 after it has already been
released (the set is empty again) does not fail silently — set.remove
raises KeyError, modelled by `none` — so release is neither silent on an
absent index nor idempotent. -/
theorem free_display_absent_counterexample :
    free_display 0 ((find_display []).2) = some [] ∧ free_display 0 [] = none := by
  decide

/-- C8 amended: _free_display removes the index from the allocated set
when it is present; when the index is not present, set.remove raises
KeyError — the failure is not silent, and a second release of the same
index raises. -/
theorem free_display_amended (l : List Nat) (d : Nat) :
    (free_display d l = none ↔ d ∉ l)
  ∧ (l.Nodup → ∀ l2, free_display d l = some l2 → d ∉ l2 ∧ l2 = l.erase d) := by
  constructor
  · unfold free_display set_remove
    split
    · simp_all
    · simp_all
  · intro hnd l2 h
    unfold free_display set_remove at h
    split at h
    · injection h with h2
      subst h2
      constructor
      · rw [List.Nodup.mem_erase_iff hnd]
        rintro ⟨hne, _⟩
        exact hne rfl
      · rfl
    · exact Option.noConfusion h

/-- C8 witness: instantiation of the amended statement at the singleton
set containing 0. -/
theorem free_display_amended_witness :
    (0 : Nat) ∉ ([] : List Nat) ∧ ([] : List Nat) = ([0] : List Nat).erase 0 :=
  (free_display_amended [0] 0).2 (by decide) [] (by decide)

/-- C9: the first statement of _spawn_pkjs is a process-global os.chdir
into the directory of the runtime binary: afterwards the controller
process itself has that working directory, every relative path it
resolves is resolved against that directory, and the Popen call passes
no cwd argument (the child merely inherits). By contrast _spawn_qemu
passes cwd to Popen and leaves the controller working directory
untouched. -/
theorem spawn_pkjs_global_chdir (s : EmuState) (c : Ctrl) (rel : String) :
    (spawn_pkjs s c).2.1.cwd = dirname s.settings.pkjsBin
  ∧ resolveRel (spawn_pkjs s c).2.1 rel = dirname s.settings.pkjsBin ++ "/" ++ rel
  ∧ (spawn_qemu s c).2.1.cwd = c.cwd := by
  have h1 : (spawn_pkjs s c).2.1.cwd = dirname s.settings.pkjsBin := by
    simp only [spawn_pkjs, popen, fresh_tmp]
    repeat' split
    all_goals rfl
  have h3 : (spawn_qemu s c).2.1.cwd = c.cwd := by
    simp only [spawn_qemu, popen]
    repeat' split
    all_goals rfl
  refine ⟨h1, ?_, h3⟩
  unfold resolveRel
  rw [h1]

/-- C10: with both settings paths configured and a malformed archive,
Monkey construction raises the archive error, but the temporary
extraction directory was already created before the archive was opened,
and it remains on the filesystem — nothing removes it, since no Monkey
object exists to clean it. -/
theorem monkey_init_leaks_tempdir_on_bad_archive (lh rp : String) (cp : Nat) (fs : FS) :
    (monkey_init (some lh) (some rp) false cp fs).2 = Except.error PyErr.badZipfile
  ∧ fs.next ∈ (monkey_init (some lh) (some rp) false cp fs).1.tmpdirs := by
  constructor
  · rfl
  · simp [monkey_init, fs_mkdtemp]

end QemuController

